import Mathlib

/-!
Shallow embedding of the math MCP server (`src/main.py`).

Modelling conventions:
* Python floats are modelled as rationals (`ℚ`): every literal and every
  arithmetic operation appearing in the source (`+`, `-`, `*`, `/`, `%`,
  `** 2`, `abs`, comparisons, `int(...)`, `math.ceil`, `math.floor`,
  `math.factorial`, `math.gcd`, `math.lcm`, `sum`, `sorted`, indexing) is
  exact on the inputs the claims quantify over.
* Python dicts returned by the tools are modelled as association lists
  `List (String × PyVal)`, keeping the key set explicit.
* Python's int/float distinction is kept in `PyVal` (`math.ceil`,
  `math.floor`, `math.factorial`, `math.gcd`, `math.lcm` return `int`;
  float arithmetic returns `float`).
* The process-wide logger is modelled as explicit state: every tool takes
  the current log (a list of events) and returns the extended log next to
  its response envelope.
* Transcendental library calls with no exact rational meaning
  (`math.log`, `math.sin`, `math.cos`, `math.tan` after `math.radians`,
  `math.sqrt`, `x ** 0.5`, `pow` with arbitrary exponent) are abstracted
  as a `MathOracle` parameter; every theorem about the surrounding control
  flow is proved for an arbitrary oracle.
-/

namespace MathMCP

/-- A Python runtime value as it can appear in a response dict:
an arbitrary-precision integer, a float (modelled exactly as `ℚ`),
a complex number (as `pow` can return for a negative base with a
fractional exponent), or a string. -/
inductive PyVal where
  | int (n : ℤ)
  | float (q : ℚ)
  | complex (re im : ℚ)
  | str (s : String)
deriving DecidableEq, Repr

/-- One record written to the process-wide logger. -/
inductive LogEvent where
  | info (line : String)
  | error (line : String)
deriving DecidableEq, Repr

/-- The state of the append-only log stream. -/
abbrev Log := List LogEvent

/-- A response dict (`Dict[str, Any]` in the source), with its keys explicit. -/
abbrev Envelope := List (String × PyVal)

/-- `success_response(operation, result)` from `src/main.py`. -/
def success_response (operation : String) (result : PyVal) : Envelope :=
  [("status", PyVal.str "success"),
   ("operation", PyVal.str operation),
   ("result", result)]

/-- The dict built by `error_response(operation, message)` in `src/main.py`. -/
def error_envelope (operation : String) (message : String) : Envelope :=
  [("status", PyVal.str "error"),
   ("operation", PyVal.str operation),
   ("message", PyVal.str message)]

/-- `error_response(operation, message)` from `src/main.py`: logs the failure
at error severity, then returns the error dict. -/
def error_response (operation : String) (message : String) (log : Log) :
    Log × Envelope :=
  (log ++ [LogEvent.error (operation ++ " failed: " ++ message)],
   error_envelope operation message)

/-- The success pattern shared by every tool body in `src/main.py`:
`logger.info(line)` followed by `return success_response(operation, result)`. -/
def ok (operation : String) (line : String) (result : PyVal) (log : Log) :
    Log × Envelope :=
  (log ++ [LogEvent.info line], success_response operation result)

/-- Python `int(q)` on a float: truncation toward zero. -/
def truncInt (q : ℚ) : ℤ :=
  if q < 0 then ⌈q⌉ else ⌊q⌋

/-- Python's float `%` operator: floored remainder `a - b * floor(a / b)`
(the sign of a nonzero result follows the divisor `b`). -/
def pymod (a b : ℚ) : ℚ :=
  a - b * (⌊a / b⌋ : ℚ)

/-- The possible outcomes of Python's `pow(base, exponent)` on floats:
a float; a complex number (negative base with a fractional exponent);
or a raised exception such as `ZeroDivisionError` for a zero base with
a negative exponent (caught by the tool and turned into an error
envelope carrying the exception's message). Which outcome occurs is
platform float semantics, left to the oracle. -/
inductive PowOutcome where
  | float (q : ℚ)
  | complex (re im : ℚ)
  | raises (message : String)

/-- The platform math primitives the source calls and the embedding keeps
abstract: `pow(base, exponent)` with arbitrary float exponent (`powf`,
returning one of the three `pow` outcomes), `x ** 0.5` on the sqrt tool's
non-negative reachable domain (`powHalf`, always a float there),
`math.sqrt` (`sqrtf`), `math.log(value, base)` (`logf`), `math.log(x)`
(`lnf`), and the degree-argument compositions
`math.sin/cos/tan(math.radians(x))` (`sinDeg`, `cosDeg`, `tanDeg`). -/
structure MathOracle where
  powf : ℚ → ℚ → PowOutcome
  powHalf : ℚ → ℚ
  sqrtf : ℚ → ℚ
  logf : ℚ → ℚ → ℚ
  lnf : ℚ → ℚ
  sinDeg : ℚ → ℚ
  cosDeg : ℚ → ℚ
  tanDeg : ℚ → ℚ

/-- A fixed stand-in oracle used only to evaluate theorems at concrete
inputs; the claim theorems themselves quantify over the oracle. -/
def defaultOracle : MathOracle :=
  ⟨fun _ _ => PowOutcome.float 0, fun _ => 0, fun _ => 0, fun _ _ => 0,
   fun _ => 0, fun _ => 0, fun _ => 0, fun _ => 0⟩

/-- Pydantic model `TwoNumberOperation`: two required floats. -/
structure TwoNumberOperation where
  a : ℚ
  b : ℚ
deriving DecidableEq, Repr

/-- Pydantic model `SingleNumberOperation`: one required float. -/
structure SingleNumberOperation where
  a : ℚ
deriving DecidableEq, Repr

/-- Pydantic model `PowerOperation`. -/
structure PowerOperation where
  base : ℚ
  exponent : ℚ
deriving DecidableEq, Repr

/-- Pydantic model `ListOperation`: a required list of floats. -/
structure ListOperation where
  numbers : List ℚ
deriving DecidableEq, Repr

/-- Pydantic model `AngleOperation`: an angle in degrees. -/
structure AngleOperation where
  angle : ℚ
deriving DecidableEq, Repr

/-- Pydantic model `LogOperation`: a required `value` and a `base`
field declared with `Field(default=10)`. -/
structure LogOperation where
  value : ℚ
  base : ℚ
deriving DecidableEq, Repr

/-- Validation of a `LogOperation` payload: a missing `base` field is
filled with the declared default 10. -/
def LogOperation.ofPayload (value : ℚ) (baseField : Option ℚ) : LogOperation :=
  ⟨value, baseField.getD 10⟩

/-- Tool `add`. -/
def add (data : TwoNumberOperation) (log : Log) : Log × Envelope :=
  let result := data.a + data.b
  ok "add" s!"ADD | {data.a} + {data.b} = {result}" (PyVal.float result) log

/-- Tool `subtract`. -/
def subtract (data : TwoNumberOperation) (log : Log) : Log × Envelope :=
  let result := data.a - data.b
  ok "subtract" s!"SUB | {data.a} - {data.b} = {result}" (PyVal.float result) log

/-- Tool `multiply`. -/
def multiply (data : TwoNumberOperation) (log : Log) : Log × Envelope :=
  let result := data.a * data.b
  ok "multiply" s!"MUL | {data.a} * {data.b} = {result}" (PyVal.float result) log

/-- Tool `divide`: raises (and hence returns an error envelope for)
`ZeroDivisionError("Division by zero is not allowed.")` when `b == 0`. -/
def divide (data : TwoNumberOperation) (log : Log) : Log × Envelope :=
  if data.b = 0 then
    error_response "divide" "Division by zero is not allowed." log
  else
    let result := data.a / data.b
    ok "divide" s!"DIV | {data.a} / {data.b} = {result}" (PyVal.float result) log

/-- Tool `modulus`: error envelope when `b == 0`, else Python's `a % b`. -/
def modulus (data : TwoNumberOperation) (log : Log) : Log × Envelope :=
  if data.b = 0 then
    error_response "modulus" "Modulus by zero is not allowed." log
  else
    let result := pymod data.a data.b
    ok "modulus" s!"MOD | {data.a} % {data.b} = {result}" (PyVal.float result) log

/-- Tool `power`: `pow(base, exponent)` through the oracle. A float or
complex return value becomes a success envelope; a raised exception is
caught and becomes an error envelope with the exception's message. -/
def power (o : MathOracle) (data : PowerOperation) (log : Log) : Log × Envelope :=
  match o.powf data.base data.exponent with
  | .float q =>
      ok "power" s!"POW | {data.base} ^ {data.exponent} = {q}" (PyVal.float q) log
  | .complex re im =>
      ok "power" s!"POW | {data.base} ^ {data.exponent} = {re}+{im}j"
        (PyVal.complex re im) log
  | .raises message => error_response "power" message log

/-- Tool `square`: `a ** 2`. -/
def square (data : SingleNumberOperation) (log : Log) : Log × Envelope :=
  let result := data.a ^ 2
  ok "square" s!"SQUARE | {data.a}^2 = {result}" (PyVal.float result) log

/-- Tool `sqrt`: error envelope for negative input, else `a ** 0.5`. -/
def sqrt (o : MathOracle) (data : SingleNumberOperation) (log : Log) : Log × Envelope :=
  if data.a < 0 then
    error_response "sqrt" "Square root of negative number is not allowed." log
  else
    let result := o.powHalf data.a
    ok "sqrt" s!"SQRT | √{data.a} = {result}" (PyVal.float result) log

/-- Tool `factorial`: `a < 0` and `a != int(a)` are rejected in that order,
else `math.factorial(int(a))`. -/
def factorial (data : SingleNumberOperation) (log : Log) : Log × Envelope :=
  if data.a < 0 then
    error_response "factorial" "Factorial is not defined for negative numbers." log
  else if data.a ≠ (truncInt data.a : ℚ) then
    error_response "factorial" "Factorial is only defined for integers." log
  else
    let result : ℤ := (truncInt data.a).toNat.factorial
    ok "factorial" s!"FACTORIAL | = {result}" (PyVal.int result) log

/-- Tool `absolute`: `abs(a)`. -/
def absolute (data : SingleNumberOperation) (log : Log) : Log × Envelope :=
  let result := |data.a|
  ok "absolute" s!"ABS | = {result}" (PyVal.float result) log

/-- Tool `logarithm`: rejects `value <= 0`, then `base <= 0 or base == 1`,
else `math.log(value, base)` through the oracle. -/
def logarithm (o : MathOracle) (data : LogOperation) (log : Log) : Log × Envelope :=
  if data.value ≤ 0 then
    error_response "logarithm" "Logarithm is only defined for positive numbers." log
  else if data.base ≤ 0 ∨ data.base = 1 then
    error_response "logarithm" "Logarithm base must be positive and not equal to 1." log
  else
    let result := o.logf data.value data.base
    ok "logarithm" s!"LOG | = {result}" (PyVal.float result) log

/-- Tool `natural_log`: rejects `a <= 0`, else `math.log(a)`. -/
def natural_log (o : MathOracle) (data : SingleNumberOperation) (log : Log) : Log × Envelope :=
  if data.a ≤ 0 then
    error_response "natural_log" "Natural logarithm is only defined for positive numbers." log
  else
    let result := o.lnf data.a
    ok "natural_log" s!"LN | = {result}" (PyVal.float result) log

/-- Tool `sine`: `math.sin(math.radians(angle))`. -/
def sine (o : MathOracle) (data : AngleOperation) (log : Log) : Log × Envelope :=
  let result := o.sinDeg data.angle
  ok "sine" s!"SIN | = {result}" (PyVal.float result) log

/-- Tool `cosine`: `math.cos(math.radians(angle))`. -/
def cosine (o : MathOracle) (data : AngleOperation) (log : Log) : Log × Envelope :=
  let result := o.cosDeg data.angle
  ok "cosine" s!"COS | = {result}" (PyVal.float result) log

/-- Tool `tangent`: `math.tan(math.radians(angle))`. -/
def tangent (o : MathOracle) (data : AngleOperation) (log : Log) : Log × Envelope :=
  let result := o.tanDeg data.angle
  ok "tangent" s!"TAN | = {result}" (PyVal.float result) log

/-- Tool `gcd`: rejects non-integral inputs, else `math.gcd(int(a), int(b))`
(Python's `math.gcd` accepts negatives and returns the non-negative gcd). -/
def gcd (data : TwoNumberOperation) (log : Log) : Log × Envelope :=
  if data.a ≠ (truncInt data.a : ℚ) ∨ data.b ≠ (truncInt data.b : ℚ) then
    error_response "gcd" "GCD is only defined for integers." log
  else
    let result : ℤ := Int.gcd (truncInt data.a) (truncInt data.b)
    ok "gcd" s!"GCD | = {result}" (PyVal.int result) log

/-- Tool `lcm`: rejects non-integral inputs, else `math.lcm(int(a), int(b))`. -/
def lcm (data : TwoNumberOperation) (log : Log) : Log × Envelope :=
  if data.a ≠ (truncInt data.a : ℚ) ∨ data.b ≠ (truncInt data.b : ℚ) then
    error_response "lcm" "LCM is only defined for integers." log
  else
    let result : ℤ := Int.lcm (truncInt data.a) (truncInt data.b)
    ok "lcm" s!"LCM | = {result}" (PyVal.int result) log

/-- Tool `mean`: rejects the empty list, else `sum(numbers) / len(numbers)`. -/
def mean (data : ListOperation) (log : Log) : Log × Envelope :=
  if data.numbers = [] then
    error_response "mean" "Cannot calculate mean of an empty list." log
  else
    let result := data.numbers.sum / (data.numbers.length : ℚ)
    ok "mean" s!"MEAN | = {result}" (PyVal.float result) log

/-- Tool `median`: rejects the empty list, else sorts and takes the middle
element (odd length) or the average of the two middle elements (even
length). Indexing uses `getD`; on the non-empty branch both indices are
in range, so the default is never read. -/
def median (data : ListOperation) (log : Log) : Log × Envelope :=
  if data.numbers = [] then
    error_response "median" "Cannot calculate median of an empty list." log
  else
    let sorted_numbers := data.numbers.insertionSort (· ≤ ·)
    let n := sorted_numbers.length
    let result :=
      if n % 2 = 0 then
        (sorted_numbers.getD (n / 2 - 1) 0 + sorted_numbers.getD (n / 2) 0) / 2
      else
        sorted_numbers.getD (n / 2) 0
    ok "median" s!"MEDIAN | = {result}" (PyVal.float result) log

/-- Tool `standard_deviation`: rejects lists with fewer than 2 numbers,
else the sample standard deviation (`n - 1` denominator) with the final
`math.sqrt` through the oracle. -/
def standard_deviation (o : MathOracle) (data : ListOperation) (log : Log) :
    Log × Envelope :=
  if data.numbers.length < 2 then
    error_response "standard_deviation" "Standard deviation requires at least 2 numbers." log
  else
    let mean_value := data.numbers.sum / (data.numbers.length : ℚ)
    let variance :=
      (data.numbers.map (fun x => (x - mean_value) ^ 2)).sum /
        ((data.numbers.length : ℚ) - 1)
    let result := o.sqrtf variance
    ok "standard_deviation" s!"STDDEV | = {result}" (PyVal.float result) log

/-- Tool `ceiling`: `math.ceil(a)`, a Python `int`. -/
def ceiling (data : SingleNumberOperation) (log : Log) : Log × Envelope :=
  let result : ℤ := ⌈data.a⌉
  ok "ceiling" s!"CEIL | = {result}" (PyVal.int result) log

/-- Tool `floor`: `math.floor(a)`, a Python `int`. -/
def floor (data : SingleNumberOperation) (log : Log) : Log × Envelope :=
  let result : ℤ := ⌊data.a⌋
  ok "floor" s!"FLOOR | = {result}" (PyVal.int result) log

/-- A validated call to one of the registered tools. -/
inductive ToolCall where
  | add (data : TwoNumberOperation)
  | subtract (data : TwoNumberOperation)
  | multiply (data : TwoNumberOperation)
  | divide (data : TwoNumberOperation)
  | modulus (data : TwoNumberOperation)
  | power (data : PowerOperation)
  | square (data : SingleNumberOperation)
  | sqrt (data : SingleNumberOperation)
  | factorial (data : SingleNumberOperation)
  | absolute (data : SingleNumberOperation)
  | logarithm (data : LogOperation)
  | natural_log (data : SingleNumberOperation)
  | sine (data : AngleOperation)
  | cosine (data : AngleOperation)
  | tangent (data : AngleOperation)
  | gcd (data : TwoNumberOperation)
  | lcm (data : TwoNumberOperation)
  | mean (data : ListOperation)
  | median (data : ListOperation)
  | standard_deviation (data : ListOperation)
  | ceiling (data : SingleNumberOperation)
  | floor (data : SingleNumberOperation)
deriving DecidableEq, Repr

/-- The registered name of the tool a call addresses. -/
def toolName : ToolCall → String
  | .add _ => "add"
  | .subtract _ => "subtract"
  | .multiply _ => "multiply"
  | .divide _ => "divide"
  | .modulus _ => "modulus"
  | .power _ => "power"
  | .square _ => "square"
  | .sqrt _ => "sqrt"
  | .factorial _ => "factorial"
  | .absolute _ => "absolute"
  | .logarithm _ => "logarithm"
  | .natural_log _ => "natural_log"
  | .sine _ => "sine"
  | .cosine _ => "cosine"
  | .tangent _ => "tangent"
  | .gcd _ => "gcd"
  | .lcm _ => "lcm"
  | .mean _ => "mean"
  | .median _ => "median"
  | .standard_deviation _ => "standard_deviation"
  | .ceiling _ => "ceiling"
  | .floor _ => "floor"

/-- The tool registry: route a validated call to its operation function. -/
def dispatch (o : MathOracle) : ToolCall → Log → Log × Envelope
  | .add d, log => add d log
  | .subtract d, log => subtract d log
  | .multiply d, log => multiply d log
  | .divide d, log => divide d log
  | .modulus d, log => modulus d log
  | .power d, log => power o d log
  | .square d, log => square d log
  | .sqrt d, log => sqrt o d log
  | .factorial d, log => factorial d log
  | .absolute d, log => absolute d log
  | .logarithm d, log => logarithm o d log
  | .natural_log d, log => natural_log o d log
  | .sine d, log => sine o d log
  | .cosine d, log => cosine o d log
  | .tangent d, log => tangent o d log
  | .gcd d, log => gcd d log
  | .lcm d, log => lcm d log
  | .mean d, log => mean d log
  | .median d, log => median d log
  | .standard_deviation d, log => standard_deviation o d log
  | .ceiling d, log => ceiling d log
  | .floor d, log => floor d log

end MathMCP

namespace MathMCP

/-- An envelope with exactly the success keys, in the order the source
builds them. -/
def isSuccessShape (env : Envelope) : Prop :=
  ∃ operation r, env = success_response operation r

/-- An envelope with exactly the error keys, in the order the source
builds them. -/
def isErrorShape (env : Envelope) : Prop :=
  ∃ operation message, env = error_envelope operation message

theorem ok_shape (operation line : String) (r : PyVal) (log : Log) :
    isSuccessShape (ok operation line r log).2 :=
  ⟨operation, r, rfl⟩

theorem error_response_shape (operation message : String) (log : Log) :
    isErrorShape (error_response operation message log).2 :=
  ⟨operation, message, rfl⟩

theorem dispatch_shape (o : MathOracle) (c : ToolCall) (log : Log) :
    isSuccessShape (dispatch o c log).2 ∨ isErrorShape (dispatch o c log).2 := by
  cases c <;>
    simp only [dispatch, add, subtract, multiply, divide, modulus, power, square,
      sqrt, factorial, absolute, logarithm, natural_log, sine, cosine, tangent,
      gcd, lcm, mean, median, standard_deviation, ceiling, floor] <;>
    (try split_ifs) <;>
    (try split) <;>
    first
      | exact Or.inl (ok_shape _ _ _ _)
      | exact Or.inr (error_response_shape _ _ _)

theorem dispatch_env_log_independent (o : MathOracle) (c : ToolCall) (s t : Log) :
    (dispatch o c s).2 = (dispatch o c t).2 := by
  cases c <;>
    simp only [dispatch, add, subtract, multiply, divide, modulus, power, square,
      sqrt, factorial, absolute, logarithm, natural_log, sine, cosine, tangent,
      gcd, lcm, mean, median, standard_deviation, ceiling, floor, ok,
      error_response] <;>
    (try split_ifs) <;>
    (try split) <;>
    rfl

/-- C1: for every tool and every validated input, the call returns an
envelope of exactly one of two shapes and never propagates an exception:
a success envelope with keys {status: "success", operation, result} and no
"message" key, or an error envelope with keys {status: "error", operation,
message} and no "result" key. -/
theorem C1_envelope_two_shapes (o : MathOracle) (c : ToolCall) (log : Log) :
    (isSuccessShape (dispatch o c log).2
       ∧ ((dispatch o c log).2).lookup "status" = some (PyVal.str "success")
       ∧ ((dispatch o c log).2).lookup "message" = none)
  ∨ (isErrorShape (dispatch o c log).2
       ∧ ((dispatch o c log).2).lookup "status" = some (PyVal.str "error")
       ∧ ((dispatch o c log).2).lookup "result" = none) := by
  rcases dispatch_shape o c log with h | h
  · obtain ⟨operation, r, hE⟩ := h
    exact Or.inl ⟨⟨operation, r, hE⟩, by rw [hE]; rfl, by rw [hE]; rfl⟩
  · obtain ⟨operation, message, hE⟩ := h
    exact Or.inr ⟨⟨operation, message, hE⟩, by rw [hE]; rfl, by rw [hE]; rfl⟩

/-- C8: every operation is deterministic and idempotent: repeating a call
with identical validated input (the only state, the append-only log,
having advanced by the first call) yields an identical envelope. -/
theorem C8_deterministic_idempotent (o : MathOracle) (c : ToolCall) (log : Log) :
    (dispatch o c ((dispatch o c log).1)).2 = (dispatch o c log).2 :=
  dispatch_env_log_independent o c _ log

end MathMCP

namespace MathMCP

theorem success_ne_error (op1 op2 m : String) (r : PyVal) :
    success_response op1 r ≠ error_envelope op2 m := by
  simp [success_response, error_envelope]

theorem truncInt_eq_floor_of_nonneg (a : ℚ) (h : 0 ≤ a) : truncInt a = ⌊a⌋ := by
  unfold truncInt
  rw [if_neg (not_lt.mpr h)]

theorem truncInt_eq_floor_of_integral (a : ℚ) (h : a = (⌊a⌋ : ℚ)) :
    truncInt a = ⌊a⌋ := by
  unfold truncInt
  split_ifs with hlt
  · conv_lhs => rw [h]
    simp
  · rfl

/-- C2: divide(a, 0) is the error envelope with message exactly
"Division by zero is not allowed."; for b ≠ 0 it succeeds with a / b. -/
theorem C2_divide (a b : ℚ) (log : Log) :
    (b = 0 → (divide ⟨a, b⟩ log).2 =
      error_envelope "divide" "Division by zero is not allowed.")
  ∧ (b ≠ 0 → (divide ⟨a, b⟩ log).2 =
      success_response "divide" (PyVal.float (a / b))) := by
  constructor
  · intro hb
    simp [divide, hb, error_response]
  · intro hb
    simp [divide, hb, ok]

/-- C2 witness: divide(10, 4) succeeds with 2.5 (= 5/2). -/
theorem C2_divide_witness :
    (divide ⟨10, 4⟩ []).2 = success_response "divide" (PyVal.float (5 / 2)) := by
  have h10 : (10 : ℚ) / 4 = 5 / 2 := by norm_num
  have h := (C2_divide 10 4 []).2 (by norm_num)
  rw [h, h10]

/-- C3: factorial succeeds exactly on non-negative integral inputs, with
the exact arbitrary-precision factorial of ⌊a⌋; a negative input errors
with the negative-numbers message and a non-negative non-integral input
errors with the integers-only message. -/
theorem C3_factorial (a : ℚ) (log : Log) :
    ((∃ r, (factorial ⟨a⟩ log).2 = success_response "factorial" r)
       ↔ (0 ≤ a ∧ a = (⌊a⌋ : ℚ)))
  ∧ (0 ≤ a → a = (⌊a⌋ : ℚ) →
      (factorial ⟨a⟩ log).2 =
        success_response "factorial" (PyVal.int (⌊a⌋.toNat.factorial : ℕ)))
  ∧ (a < 0 →
      (factorial ⟨a⟩ log).2 =
        error_envelope "factorial" "Factorial is not defined for negative numbers.")
  ∧ (0 ≤ a → a ≠ (⌊a⌋ : ℚ) →
      (factorial ⟨a⟩ log).2 =
        error_envelope "factorial" "Factorial is only defined for integers.") := by
  have hneg : a < 0 → (factorial ⟨a⟩ log).2 =
      error_envelope "factorial" "Factorial is not defined for negative numbers." := by
    intro h
    simp [factorial, h, error_response]
  have hsucc : 0 ≤ a → a = (⌊a⌋ : ℚ) → (factorial ⟨a⟩ log).2 =
      success_response "factorial" (PyVal.int (⌊a⌋.toNat.factorial : ℕ)) := by
    intro h0 hint
    have ht : truncInt a = ⌊a⌋ := truncInt_eq_floor_of_nonneg a h0
    simp only [factorial]
    rw [if_neg (not_lt.mpr h0), ht, if_neg (not_not_intro hint)]
    rfl
  have hnonint : 0 ≤ a → a ≠ (⌊a⌋ : ℚ) → (factorial ⟨a⟩ log).2 =
      error_envelope "factorial" "Factorial is only defined for integers." := by
    intro h0 hne
    have ht : truncInt a = ⌊a⌋ := truncInt_eq_floor_of_nonneg a h0
    have hcond : a ≠ (truncInt a : ℚ) := by
      rw [ht]
      exact hne
    simp [factorial, not_lt.mpr h0, hcond, error_response]
  refine ⟨?_, hsucc, hneg, hnonint⟩
  constructor
  · rintro ⟨r, hr⟩
    rcases lt_or_ge a 0 with hlt | hge
    · rw [hneg hlt] at hr
      exact absurd hr.symm (success_ne_error _ _ _ _)
    · by_cases hint : a = (⌊a⌋ : ℚ)
      · exact ⟨hge, hint⟩
      · rw [hnonint hge hint] at hr
        exact absurd hr.symm (success_ne_error _ _ _ _)
  · rintro ⟨h0, hint⟩
    exact ⟨_, hsucc h0 hint⟩

/-- C3 witness: factorial(5) = 120, factorial(-1) errors as negative,
factorial(5/2) errors as not an integer. -/
theorem C3_factorial_witness :
    (factorial ⟨5⟩ []).2 = success_response "factorial" (PyVal.int 120)
  ∧ (factorial ⟨-1⟩ []).2 =
      error_envelope "factorial" "Factorial is not defined for negative numbers."
  ∧ (factorial ⟨5 / 2⟩ []).2 =
      error_envelope "factorial" "Factorial is only defined for integers." := by
  refine ⟨?_, ?_, ?_⟩
  · have h := (C3_factorial 5 []).2.1 (by norm_num) (by norm_num)
    rw [h]
    norm_num [Nat.factorial]
  · exact (C3_factorial (-1) []).2.2.1 (by norm_num)
  · exact (C3_factorial (5 / 2) []).2.2.2 (by norm_num) (by norm_num)

/-- C9: on an input that is both negative and non-integral, the
negativity check wins: the error message is the negative-numbers one,
not the integers-only one. -/
theorem C9_factorial_negative_priority (a : ℚ) (log : Log)
    (hneg : a < 0) (_hnonint : a ≠ (⌊a⌋ : ℚ)) :
    (factorial ⟨a⟩ log).2 =
      error_envelope "factorial" "Factorial is not defined for negative numbers."
  ∧ (factorial ⟨a⟩ log).2 ≠
      error_envelope "factorial" "Factorial is only defined for integers." := by
  have h : (factorial ⟨a⟩ log).2 =
      error_envelope "factorial" "Factorial is not defined for negative numbers." := by
    simp [factorial, hneg, error_response]
  refine ⟨h, ?_⟩
  rw [h]
  decide

/-- C9 witness at a = -1.5. -/
theorem C9_factorial_negative_priority_witness :
    (factorial ⟨-(3 / 2)⟩ []).2 =
      error_envelope "factorial" "Factorial is not defined for negative numbers." :=
  (C9_factorial_negative_priority (-(3 / 2)) [] (by norm_num) (by norm_num)).1

end MathMCP

namespace MathMCP

/-- Modelled from the spec: the truncated remainder of `a` by `b`, the
remainder whose sign follows the dividend `a`, consistent with a
truncated-division `%`. This is what C5 asserts `modulus` computes;
compare it with `pymod`, translated from the source. -/
def specTruncatedRem (a b : ℚ) : ℚ :=
  a - b * (truncInt (a / b) : ℚ)

/-- C5 counterexample: at a = -7, b = 3 the code returns 2 (the floored
remainder, whose sign follows the divisor), while the truncated remainder
the claim describes is -1. -/
theorem C5_modulus_counterexample :
    (modulus ⟨-7, 3⟩ []).2 = success_response "modulus" (PyVal.float 2)
  ∧ specTruncatedRem (-7) 3 = -1
  ∧ (modulus ⟨-7, 3⟩ []).2 ≠
      success_response "modulus" (PyVal.float (specTruncatedRem (-7) 3)) := by
  have hpy : pymod (-7 : ℚ) 3 = 2 := by
    unfold pymod
    norm_num
  have henv : (modulus ⟨-7, 3⟩ []).2 =
      success_response "modulus" (PyVal.float (pymod (-7) 3)) := by
    simp only [modulus]
    rw [if_neg (by norm_num : ¬ ((3 : ℚ) = 0))]
    rfl
  have htr : specTruncatedRem (-7) 3 = -1 := by
    have hc : ⌈((-7 : ℚ) / 3)⌉ = -2 := by
      rw [Int.ceil_eq_iff]
      constructor <;> norm_num
    unfold specTruncatedRem truncInt
    rw [if_pos (show ((-7 : ℚ)) / 3 < 0 by norm_num), hc]
    norm_num
  refine ⟨henv.trans (by rw [hpy]), htr, ?_⟩
  rw [henv, hpy, htr]
  simp [success_response]
  norm_num

/-- C5 amended: modulus(a, b) with b ≠ 0 succeeds with the floored
remainder a - b·⌊a / b⌋ (Python's `%`, whose sign follows the divisor b),
and errors when b = 0. -/
theorem C5_modulus_amended (a b : ℚ) (log : Log) :
    (b = 0 → (modulus ⟨a, b⟩ log).2 =
      error_envelope "modulus" "Modulus by zero is not allowed.")
  ∧ (b ≠ 0 → (modulus ⟨a, b⟩ log).2 =
      success_response "modulus" (PyVal.float (a - b * (⌊a / b⌋ : ℚ)))) := by
  constructor
  · intro hb
    simp [modulus, hb, error_response]
  · intro hb
    simp [modulus, hb, ok, pymod]

/-- C5 amended witness: modulus(-7, 3) succeeds with -7 - 3·⌊-7/3⌋ = 2. -/
theorem C5_modulus_amended_witness :
    (modulus ⟨-7, 3⟩ []).2 =
      success_response "modulus" (PyVal.float ((-7 : ℚ) - 3 * (⌊(-7 : ℚ) / 3⌋ : ℚ))) :=
  (C5_modulus_amended (-7) 3 []).2 (by norm_num)

/-- C10: gcd accepts zero and negative integral inputs and succeeds with
the non-negative greatest common divisor (greatest in the divisibility
order, hence the gcd of the absolute values), with gcd(0, 0) = 0. -/
theorem C10_gcd (a b : ℚ) (log : Log)
    (ha : a = (⌊a⌋ : ℚ)) (hb : b = (⌊b⌋ : ℚ)) :
    ∃ g : ℤ, (gcd ⟨a, b⟩ log).2 = success_response "gcd" (PyVal.int g)
      ∧ 0 ≤ g ∧ g ∣ ⌊a⌋ ∧ g ∣ ⌊b⌋
      ∧ (∀ d : ℤ, d ∣ ⌊a⌋ → d ∣ ⌊b⌋ → d ∣ g)
      ∧ (a = 0 → b = 0 → g = 0) := by
  have hta : truncInt a = ⌊a⌋ := truncInt_eq_floor_of_integral a ha
  have htb : truncInt b = ⌊b⌋ := truncInt_eq_floor_of_integral b hb
  refine ⟨(Int.gcd ⌊a⌋ ⌊b⌋ : ℕ), ?_, ?_, ?_, ?_, ?_, ?_⟩
  · simp only [gcd]
    rw [hta, htb, if_neg (not_or.mpr ⟨not_not_intro ha, not_not_intro hb⟩)]
    rfl
  · exact Int.natCast_nonneg _
  · exact Int.gcd_dvd_left
  · exact Int.gcd_dvd_right
  · intro d hda hdb
    exact Int.dvd_gcd hda hdb
  · intro ha0 hb0
    have hfa : ⌊a⌋ = 0 := by rw [ha0]; simp
    have hfb : ⌊b⌋ = 0 := by rw [hb0]; simp
    rw [hfa, hfb]
    simp [Int.gcd]

/-- C10 witness: gcd(-12, 18) succeeds with the non-negative gcd 6. -/
theorem C10_gcd_witness :
    ∃ g : ℤ, (gcd ⟨-12, 18⟩ []).2 = success_response "gcd" (PyVal.int g)
      ∧ 0 ≤ g ∧ g ∣ ⌊(-12 : ℚ)⌋ ∧ g ∣ ⌊(18 : ℚ)⌋
      ∧ (∀ d : ℤ, d ∣ ⌊(-12 : ℚ)⌋ → d ∣ ⌊(18 : ℚ)⌋ → d ∣ g)
      ∧ ((-12 : ℚ) = 0 → (18 : ℚ) = 0 → g = 0) :=
  C10_gcd (-12) 18 [] (by norm_num) (by norm_num)

/-- C4: median of a non-empty list is the middle element of the sorted
list (odd length) or the average of the two middle sorted elements (even
length), stated for an arbitrary sorted permutation of the input; the
empty list errors with the exact empty-list message. -/
theorem C4_median (numbers : List ℚ) (log : Log) :
    (numbers = [] → (median ⟨numbers⟩ log).2 =
      error_envelope "median" "Cannot calculate median of an empty list.")
  ∧ (numbers ≠ [] → ∀ s : List ℚ, s.Perm numbers → s.Sorted (· ≤ ·) →
      (median ⟨numbers⟩ log).2 = success_response "median"
        (PyVal.float
          (if numbers.length % 2 = 0 then
            (s.getD (numbers.length / 2 - 1) 0 + s.getD (numbers.length / 2) 0) / 2
          else
            s.getD (numbers.length / 2) 0))) := by
  constructor
  · intro h
    simp [median, h, error_response]
  · intro hne s hperm hsort
    have hs : s = numbers.insertionSort (· ≤ ·) :=
      List.eq_of_perm_of_sorted
        (hperm.trans (List.perm_insertionSort _ numbers).symm) hsort
        (List.sorted_insertionSort _ numbers)
    have hlen : (numbers.insertionSort (· ≤ ·)).length = numbers.length :=
      (List.perm_insertionSort _ numbers).length_eq
    subst hs
    simp only [median]
    rw [if_neg hne, hlen]
    rfl

/-- C4 witness: median([1,2,3,4]) = 2.5 via the sorted list [1,2,3,4]. -/
theorem C4_median_witness :
    (median ⟨[1, 2, 3, 4]⟩ []).2 = success_response "median" (PyVal.float (5 / 2)) := by
  have h := (C4_median [1, 2, 3, 4] []).2 (by simp) [1, 2, 3, 4]
    (List.Perm.refl _) (by decide)
  rw [h]
  norm_num

end MathMCP

namespace MathMCP

/-- The tools whose successful result value is a Python arbitrary-precision
integer; all other tools produce floats. -/
def intResultTools : List String :=
  ["factorial", "gcd", "lcm", "ceiling", "floor"]

/-- C6 counterexample: ceiling(3.5) succeeds with the arbitrary-precision
integer 4 (Python's `math.ceil` returns an `int`), so ceiling does not
return a floating-point number as the claim states. -/
theorem C6_result_type_counterexample :
    (ceiling ⟨7 / 2⟩ []).2 = success_response "ceiling" (PyVal.int 4)
  ∧ ∀ q : ℚ, PyVal.int 4 ≠ PyVal.float q := by
  constructor
  · have hc : ⌈((7 : ℚ) / 2)⌉ = 4 := by
      rw [Int.ceil_eq_iff]
      constructor <;> norm_num
    simp only [ceiling]
    rw [hc]
    rfl
  · intro q
    simp

/-- C6 amended: every successful result is an arbitrary-precision integer
for factorial, gcd, lcm, ceiling and floor; power's successful result
follows the platform `pow` — a floating-point number, or a complex number
for a negative base with a fractional exponent; every other tool returns
a floating-point number. -/
theorem C6_result_types (o : MathOracle) (c : ToolCall) (log : Log) (r : PyVal)
    (h : (dispatch o c log).2 = success_response (toolName c) r) :
    if toolName c ∈ intResultTools then (∃ n : ℤ, r = PyVal.int n)
    else if toolName c = "power" then
      (∃ q : ℚ, r = PyVal.float q) ∨ (∃ re im : ℚ, r = PyVal.complex re im)
    else (∃ q : ℚ, r = PyVal.float q) := by
  cases c <;>
    simp only [dispatch, toolName, add, subtract, multiply, divide, modulus, power,
      square, sqrt, factorial, absolute, logarithm, natural_log, sine, cosine,
      tangent, gcd, lcm, mean, median, standard_deviation, ceiling, floor, ok,
      error_response] at h <;>
    (try split_ifs at h) <;>
    (try split at h) <;>
    first
      | (simp only [toolName]
         simp [intResultTools]
         simp [success_response] at h
         first
           | exact ⟨_, h.symm⟩
           | exact ⟨_, h⟩
           | exact Or.inl ⟨_, h.symm⟩
           | exact Or.inr ⟨_, _, h.symm⟩)
      | exact absurd h (by simp [error_envelope, success_response])

/-- C6 amended witness: add(1, 2) succeeds with a float. -/
theorem C6_result_types_witness :
    if toolName (.add ⟨1, 2⟩) ∈ intResultTools then
      (∃ n : ℤ, PyVal.float (1 + 2 : ℚ) = PyVal.int n)
    else if toolName (.add ⟨1, 2⟩) = "power" then
      (∃ q : ℚ, PyVal.float (1 + 2 : ℚ) = PyVal.float q) ∨
        (∃ re im : ℚ, PyVal.float (1 + 2 : ℚ) = PyVal.complex re im)
    else (∃ q : ℚ, PyVal.float (1 + 2 : ℚ) = PyVal.float q) :=
  C6_result_types defaultOracle (.add ⟨1, 2⟩) [] (PyVal.float (1 + 2)) rfl

/-- C7: logarithm succeeds (with the platform logarithm of value to the
given base) exactly when value > 0, base > 0 and base ≠ 1; it errors
otherwise; and an omitted base field defaults to 10. -/
theorem C7_logarithm (o : MathOracle) (v b : ℚ) (log : Log) :
    ((0 < v ∧ 0 < b ∧ b ≠ 1) →
      (logarithm o ⟨v, b⟩ log).2 =
        success_response "logarithm" (PyVal.float (o.logf v b)))
  ∧ (¬(0 < v ∧ 0 < b ∧ b ≠ 1) →
      ∃ message, (logarithm o ⟨v, b⟩ log).2 = error_envelope "logarithm" message)
  ∧ ((∃ r, (logarithm o ⟨v, b⟩ log).2 = success_response "logarithm" r)
       ↔ (0 < v ∧ 0 < b ∧ b ≠ 1))
  ∧ LogOperation.ofPayload v none = ⟨v, 10⟩ := by
  have hsucc : (0 < v ∧ 0 < b ∧ b ≠ 1) →
      (logarithm o ⟨v, b⟩ log).2 =
        success_response "logarithm" (PyVal.float (o.logf v b)) := by
    rintro ⟨hv, hb, hb1⟩
    simp only [logarithm]
    rw [if_neg (not_le.mpr hv), if_neg (not_or.mpr ⟨not_le.mpr hb, hb1⟩)]
    rfl
  have herr : ¬(0 < v ∧ 0 < b ∧ b ≠ 1) →
      ∃ message, (logarithm o ⟨v, b⟩ log).2 = error_envelope "logarithm" message := by
    intro h
    by_cases hv : v ≤ 0
    · refine ⟨"Logarithm is only defined for positive numbers.", ?_⟩
      simp [logarithm, hv, error_response]
    · have hv' : 0 < v := lt_of_not_le hv
      have hb2 : b ≤ 0 ∨ b = 1 := by
        by_contra hcon
        push_neg at hcon
        exact h ⟨hv', hcon.1, hcon.2⟩
      refine ⟨"Logarithm base must be positive and not equal to 1.", ?_⟩
      simp only [logarithm]
      rw [if_neg (not_le.mpr hv'), if_pos hb2]
      rfl
  refine ⟨hsucc, herr, ?_, rfl⟩
  constructor
  · rintro ⟨r, hr⟩
    by_contra h
    obtain ⟨message, hm⟩ := herr h
    rw [hm] at hr
    exact absurd hr.symm (success_ne_error _ _ _ _)
  · intro h
    exact ⟨_, hsucc h⟩

/-- C7 witness: logarithm(value=100, base=10) succeeds with the platform
log, and an omitted base is 10. -/
theorem C7_logarithm_witness :
    (logarithm defaultOracle ⟨100, 10⟩ []).2 =
      success_response "logarithm" (PyVal.float (defaultOracle.logf 100 10)) :=
  (C7_logarithm defaultOracle 100 10 []).1 (by norm_num)

end MathMCP
